import Mathlib

/-!
Shallow embedding of `src/client/rpc/dex_client.go` (package `rpc`): the
query-translation and response-decoding layer of a read-only chain query
client.  The transport primitives (`ABCIQuery`, `QueryStore`), the wire codec
and the bech32 address codec are external collaborators; they are modelled as
oracle fields of an `Env` record, and every operation is a pure function of
the environment and its parameters.
-/

/-- Raw bytes, as a list of byte values. -/
abbrev Bytes := List Nat

/-- The low-level ABCI query response: status code, optional value bytes
(`GetValue()` may return a nil slice, modelled as `none`), and log text. -/
structure AbciResponse where
  code : Nat
  value : Option Bytes
  log : String
deriving DecidableEq, Repr

/-- `resp.IsOK()`: the status code equals the success code 0. -/
def AbciResponse.isOK (r : AbciResponse) : Bool := r.code == 0

/-- One coin entry of an account: denomination and amount. -/
structure Coin where
  denom : String
  amount : Int
deriving DecidableEq, Repr

/-- A coin mapping, symbol to amount, as carried by an account. -/
abbrev Coins := List Coin

/-- `Coins.AmountOf(denom)`: the amount recorded for a denomination, 0 when
the denomination is absent. -/
def Coins.amountOf (coins : Coins) (denom : String) : Int :=
  match coins.find? (fun c => c.denom == denom) with
  | some c => c.amount
  | none => 0

/-- Modelled from the spec: the `types.Account` / `types.NamedAccount`
declarations are not under `src/`.  Per §3 and §9 of the spec, an account
holds a total coin mapping and, only for the "named" variant, a locked and a
frozen coin mapping; plain accounts have neither. -/
inductive Account where
  | plain (coins : Coins)
  | named (coins locked frozen : Coins)
deriving DecidableEq, Repr

/-- `account.GetCoins()`: the total coin mapping, available on both variants. -/
def Account.getCoins : Account → Coins
  | .plain coins => coins
  | .named coins _ _ => coins

/-- The per-symbol balance record `types.TokenBalance`. -/
structure TokenBalance where
  symbol : String
  free : Int
  locked : Int
  frozen : Int
deriving DecidableEq, Repr

/-- Token metadata; per §3 of the spec its internal shape is static metadata
keyed by symbol.  Only decode success or failure matters to this layer. -/
structure Token where
  symbol : String
  name : String
  totalSupply : Int
deriving DecidableEq, Repr

/-- Modelled from the spec: opaque decoded payload (§3) whose internal shape
this layer does not interpret. -/
structure TradingPair where
  raw : Nat
deriving DecidableEq, Repr

/-- Modelled from the spec: opaque decoded payload (§3). -/
structure OpenOrder where
  raw : Nat
deriving DecidableEq, Repr

/-- Modelled from the spec: opaque decoded payload (§3). -/
structure OrderBook where
  raw : Nat
deriving DecidableEq, Repr

/-- Modelled from the spec: opaque decoded payload (§3). -/
structure FeeParam where
  raw : Nat
deriving DecidableEq, Repr

/-- Modelled from the spec: opaque decoded payload (§3). -/
structure Proposal where
  raw : Nat
deriving DecidableEq, Repr

/-- Modelled from the spec: opaque decoded payload (§3). -/
structure TimeLockRecord where
  raw : Nat
deriving DecidableEq, Repr

/-- Modelled from the spec: opaque decoded payload (§3). -/
structure AtomicSwap where
  raw : Nat
deriving DecidableEq, Repr

/-- Request parameters of the time-lock list query. -/
structure QueryTimeLocksParams where
  account : Bytes
deriving DecidableEq, Repr

/-- Request parameters of the single time-lock query. -/
structure QueryTimeLockParams where
  account : Bytes
  id : Int
deriving DecidableEq, Repr

/-- Request parameters of the proposal list query. -/
structure QueryProposalsParams where
  proposalStatus : Nat
  numLatestProposals : Int
deriving DecidableEq, Repr

/-- Request parameters of the swap-by-creator query. -/
structure QuerySwapByCreatorParams where
  creator : Bytes
  status : Nat
  limit : Int
  offset : Int
deriving DecidableEq, Repr

/-- Request parameters of the swap-by-recipient query. -/
structure QuerySwapByRecipientParams where
  recipient : Bytes
  status : Nat
  limit : Int
  offset : Int
deriving DecidableEq, Repr

/-- Modelled from the spec: opaque transaction-info payload (§6, the
transport's search capability "returns already-typed results"). -/
structure TxInfo where
  raw : Nat
deriving DecidableEq, Repr

/-- The error taxonomy.  Go errors are compared by identity, not text, so each
construction site of an error in the source gets its own constructor; wrapper
constructors carry the wrapped message. -/
inductive Err where
  | validation (msg : String)
  | transport (msg : String)
  | remote (log : String)
  | decode (msg : String)
  | marshal (msg : String)
  | badRequestData (msg : String)
  | errorQuery (msg : String)
  | symbolNotFound
  | noMatchedSwap
  | bech32 (msg : String)
deriving DecidableEq, Repr

/-- Result of an operation that may also abort with a Go runtime panic
(nil-interface method call or failed single-form type assertion). -/
inductive Outcome (α : Type) where
  | ok (a : α)
  | err (e : Err)
  | panicked (msg : String)
deriving DecidableEq, Repr

/-- The wire codec, an external black box (§4.2 of the spec): per payload
shape, a fallible decode from the raw value bytes, and per request-parameter
shape a fallible JSON marshal.  Decoders receive the possibly-nil value slice. -/
structure Codec where
  tokensLP : Option Bytes → Except String (List Token)
  tokenLP : Option Bytes → Except String Token
  accountBare : Option Bytes → Except String Account
  openOrdersLP : Option Bytes → Except String (List OpenOrder)
  tradingPairsLP : Option Bytes → Except String (List TradingPair)
  orderBookLP : Option Bytes → Except String OrderBook
  feeParamsLP : Option Bytes → Except String (List FeeParam)
  proposalsJSON : Option Bytes → Except String (List Proposal)
  timeLocksJSON : Option Bytes → Except String (List TimeLockRecord)
  timeLockJSON : Option Bytes → Except String TimeLockRecord
  atomicSwapBare : Option Bytes → Except String AtomicSwap
  atomicSwapsJSON : Option Bytes → Except String (List AtomicSwap)
  marshalTimeLocksParams : QueryTimeLocksParams → Except String Bytes
  marshalTimeLockParams : QueryTimeLockParams → Except String Bytes
  marshalProposalsParams : QueryProposalsParams → Except String Bytes
  marshalSwapByCreatorParams : QuerySwapByCreatorParams → Except String Bytes
  marshalSwapByRecipientParams : QuerySwapByRecipientParams → Except String Bytes

/-- The environment: the two transport primitives, the codec, and the bech32
address codec (all external collaborators per §1 of the spec). -/
structure Env where
  abciQuery : String → Option Bytes → Except String AbciResponse
  queryStore : Bytes → String → Except String (Option Bytes)
  txInfoSearch : String → Bool → Int → Int → Except String (List TxInfo)
  codec : Codec
  accAddressFromBech32 : String → Except String Bytes
  bech32Of : Bytes → String

/-- Constant from src/client/rpc/dex_client.go:13. -/
def AccountStoreName : String := "acc"

/-- Constant from src/client/rpc/dex_client.go:15. -/
def TimeLockMsgRoute : String := "timelock"

/-- Constant from src/client/rpc/dex_client.go:16. -/
def AtomicSwapStoreName : String := "atomic_swap"

/-- Constant from src/client/rpc/dex_client.go:18. -/
def TimeLockrcNotFoundErrorCode : Nat := 458760

/-- Modelled from the spec: `msg.AtomicSwapRoute` is not under `src/`; §4.3
only fixes the template `custom/module/subroute`, so a representative module
route string is used. -/
def AtomicSwapRoute : String := "atomicSwap"

/-- Modelled from the spec: `types.StatusNil` is the zero value of the
proposal-status enumeration, which is not under `src/`. -/
def StatusNil : Nat := 0

/-- Modelled from the spec: `types.NewSwapStatusFromString` is not under
`src/`; the swap-status enumeration is opaque to this layer, so any total
mapping from text to status codes is faithful. -/
def swapStatusFromString (s : String) : Nat :=
  if s = "Open" then 1 else if s = "Completed" then 2 else if s = "Expired" then 3 else 0

/-- Modelled from the spec: the validator upper bound on `limit` (§4.1 says
"bounded by an upper maximum" without fixing the number). -/
def maxValidLimit : Int := 1000

/-- Modelled from the spec: `ValidateOffset` is not under `src/`; §4.1 —
offset must be non-negative. -/
def ValidateOffset (offset : Int) : Except String Unit :=
  if offset < 0 then .error "offset should not be less than 0" else .ok ()

/-- Modelled from the spec: `ValidateLimit` is not under `src/`; §4.1 —
limit must be non-negative and bounded by an upper maximum. -/
def ValidateLimit (limit : Int) : Except String Unit :=
  if limit < 0 then .error "limit should not be less than 0"
  else if maxValidLimit < limit then .error "limit is too large"
  else .ok ()

/-- Modelled from the spec: the token-symbol character set (§4.1, "restricted
character set") — ASCII letters, digits, dot and dash. -/
def isSymbolChar (c : Char) : Bool :=
  decide (65 ≤ c.toNat ∧ c.toNat ≤ 90 ∨ 97 ≤ c.toNat ∧ c.toNat ≤ 122 ∨
    48 ≤ c.toNat ∧ c.toNat ≤ 57 ∨ c.toNat = 45 ∨ c.toNat = 46)

/-- Modelled from the spec: `ValidateSymbol` is not under `src/`; §4.1 —
non-empty, bounded length, restricted character set. -/
def ValidateSymbol (symbol : String) : Except String Unit :=
  if symbol.data.length = 0 then .error "symbol should not be empty"
  else if 14 < symbol.data.length then .error "symbol is too long"
  else if symbol.data.all isSymbolChar then .ok ()
  else .error "symbol contains invalid characters"

/-- Split a character list at underscores (kernel-reducible helper for the
pair grammar). -/
def splitUnderscore : List Char → List Char → List (List Char)
  | [], acc => [acc.reverse]
  | c :: rest, acc =>
    if c = '_' then acc.reverse :: splitUnderscore rest []
    else splitUnderscore rest (c :: acc)

/-- Modelled from the spec: `ValidatePair` is not under `src/`; §4.1 — a
trading pair matches the BASE_QUOTE grammar over two valid symbols. -/
def ValidatePair (pair : String) : Except String Unit :=
  match splitUnderscore pair.data [] with
  | [base, quote] =>
    match ValidateSymbol (String.mk base) with
    | .error e => .error e
    | .ok _ => ValidateSymbol (String.mk quote)
  | _ => .error "pair should be in format of BASE_QUOTE"

/-- Modelled from the spec: the enumerated set of allowed book-depth levels
(§4.1, "one of a small enumerated set"). -/
def allowedDepthLevels : List Int := [5, 10, 20, 50, 100, 500, 1000]

/-- Modelled from the spec: `ValidateDepthLevel` is not under `src/`; §4.1. -/
def ValidateDepthLevel (level : Int) : Except String Unit :=
  if allowedDepthLevels.contains level then .ok ()
  else .error "depth level is not allowed"

/-- Modelled from the spec: `ValidateTxSearchQueryStr` is not under `src/`;
§4.1 — the search string must parse into the remote search-query grammar of
key:value clauses; free text with no key:value separator is rejected. -/
def ValidateTxSearchQueryStr (query : String) : Except String Unit :=
  if query.data.length = 0 then .error "query string can not be empty"
  else if query.data.contains ':' then .ok ()
  else .error "query string has no key:value clause"

/-- The bytes of a string literal (each character as its code point; all the
key tags in the source are ASCII). -/
def strBytes (s : String) : Bytes := s.data.map Char.toNat

/-- `TxInfoSearch` (src/client/rpc/dex_client.go:43-48): validate the search
query string, then delegate to the transport's search capability, whose
result (or error) is returned as-is. -/
def TxInfoSearch (env : Env) (query : String) (prove : Bool) (page perPage : Int) :
    Except Err (List TxInfo) :=
  match ValidateTxSearchQueryStr query with
  | .error e => .error (.validation e)
  | .ok _ =>
  match env.txInfoSearch query prove page perPage with
  | .error e => .error (.transport e)
  | .ok infos => .ok infos

/-- `ListAllTokens` (src/client/rpc/dex_client.go:50-66): validate offset and
limit, query `tokens/list/offset/limit`, decode length-prefixed. -/
def ListAllTokens (env : Env) (offset limit : Int) : Except Err (List Token) :=
  match ValidateOffset offset with
  | .error e => .error (.validation e)
  | .ok _ =>
  match ValidateLimit limit with
  | .error e => .error (.validation e)
  | .ok _ =>
  match env.abciQuery ("tokens/list/" ++ toString offset ++ "/" ++ toString limit) none with
  | .error e => .error (.transport e)
  | .ok result =>
  match env.codec.tokensLP result.value with
  | .error e => .error (.decode e)
  | .ok tokens => .ok tokens

/-- `GetTokenInfo` (src/client/rpc/dex_client.go:68-81). -/
def GetTokenInfo (env : Env) (symbol : String) : Except Err Token :=
  match ValidateSymbol symbol with
  | .error e => .error (.validation e)
  | .ok _ =>
  match env.abciQuery ("tokens/info/" ++ symbol) none with
  | .error e => .error (.transport e)
  | .ok result =>
  match env.codec.tokenLP result.value with
  | .error e => .error (.decode e)
  | .ok token => .ok token

/-- `GetCommitAccount` (src/client/rpc/dex_client.go:92-106): raw store read
of key `"account:" ++ addr` in store `"acc"`; a nil store value is the
explicit absent result. -/
def GetCommitAccount (env : Env) (addr : Bytes) : Except Err (Option Account) :=
  match env.queryStore (strBytes "account:" ++ addr) AccountStoreName with
  | .error e => .error (.transport e)
  | .ok none => .ok none
  | .ok (some bz) =>
  match env.codec.accountBare (some bz) with
  | .error e => .error (.decode e)
  | .ok acc => .ok (some acc)

/-- `GetAccount` (src/client/rpc/dex_client.go:114-132): ABCI query of
`/account/addr`; non-success status yields `errors.New(resp.Log)`; a
zero-length value is the explicit absent result; otherwise bare decode. -/
def GetAccount (env : Env) (addr : Bytes) : Except Err (Option Account) :=
  match env.abciQuery ("/account/" ++ env.bech32Of addr) none with
  | .error e => .error (.transport e)
  | .ok result =>
  if result.isOK then
    if (result.value.getD []).length = 0 then .ok none
    else
      match env.codec.accountBare result.value with
      | .error e => .error (.decode e)
      | .ok acc => .ok (some acc)
  else .error (.remote result.log)

/-- The loop body of `GetBalances` (src/client/rpc/dex_client.go:143-158):
for each coin, the single-form type assertion `account.(types.NamedAccount)`
runs first; in Go it panics whenever the account value does not implement
`NamedAccount`, so the `nacc != nil` guard is only reached on the named
variant. -/
def balancesLoop (account : Account) (coins : Coins) : List Coin → Outcome (List TokenBalance)
  | [] => .ok []
  | coin :: rest =>
    match account with
    | .plain _ => .panicked "interface conversion: types.Account is not types.NamedAccount"
    | .named _ locked frozen =>
      match balancesLoop account coins rest with
      | .ok bals =>
        .ok ({ symbol := coin.denom
             , free := Coins.amountOf coins coin.denom
             , locked := Coins.amountOf locked coin.denom
             , frozen := Coins.amountOf frozen coin.denom } :: bals)
      | other => other

/-- `GetBalances` (src/client/rpc/dex_client.go:134-160): fetch the latest
account, then aggregate; `account.GetCoins()` on a nil account value is a Go
nil-interface method call, i.e. a panic. -/
def GetBalances (env : Env) (addr : Bytes) : Outcome (List TokenBalance) :=
  match GetAccount env addr with
  | .error e => .err e
  | .ok none => .panicked "runtime error: invalid memory address or nil pointer dereference"
  | .ok (some account) =>
    balancesLoop account account.getCoins account.getCoins

/-- `existsCC` (src/client/rpc/dex_client.go:360-377): the token-existence
probe; false on transport error, non-success status, zero-length value, or
decode failure. -/
def existsCC (env : Env) (symbol : String) : Bool :=
  match env.abciQuery ("tokens/info/" ++ symbol) none with
  | .error _ => false
  | .ok resp =>
    if resp.isOK then
      if (resp.value.getD []).length = 0 then false
      else
        match env.codec.tokenLP resp.value with
        | .error _ => false
        | .ok _ => true
    else false

/-- `GetBalance` (src/client/rpc/dex_client.go:162-186): validate the symbol,
probe token existence (`symbol not found` when the probe fails), fetch the
latest account, then the single-form assertion `acc.(types.NamedAccount)`,
which in Go panics on a nil or plain account value. -/
def GetBalance (env : Env) (addr : Bytes) (symbol : String) : Outcome TokenBalance :=
  match ValidateSymbol symbol with
  | .error e => .err (.validation e)
  | .ok _ =>
  if existsCC env symbol then
    match GetAccount env addr with
    | .error e => .err e
    | .ok none => .panicked "interface conversion: interface is nil, not types.NamedAccount"
    | .ok (some (.plain _)) => .panicked "interface conversion: types.Account is not types.NamedAccount"
    | .ok (some (.named coins locked frozen)) =>
      .ok { symbol := symbol
          , free := Coins.amountOf coins symbol
          , locked := Coins.amountOf locked symbol
          , frozen := Coins.amountOf frozen symbol }
  else .err .symbolNotFound

/-- `GetFee` (src/client/rpc/dex_client.go:188-196): query `param/fees`,
decode length-prefixed, no status or emptiness check. -/
def GetFee (env : Env) : Except Err (List FeeParam) :=
  match env.abciQuery "param/fees" none with
  | .error e => .error (.transport e)
  | .ok rawFee =>
  match env.codec.feeParamsLP rawFee.value with
  | .error e => .error (.decode e)
  | .ok fees => .ok fees

/-- `GetOpenOrders` (src/client/rpc/dex_client.go:198-216): validate the
pair; a nil value yields the empty list; otherwise decode length-prefixed. -/
def GetOpenOrders (env : Env) (addr : Bytes) (pair : String) : Except Err (List OpenOrder) :=
  match ValidatePair pair with
  | .error e => .error (.validation e)
  | .ok _ =>
  match env.abciQuery ("dex/openorders/" ++ pair ++ "/" ++ env.bech32Of addr) none with
  | .error e => .error (.transport e)
  | .ok rawOrders =>
  match rawOrders.value with
  | none => .ok []
  | some bz =>
  match env.codec.openOrdersLP (some bz) with
  | .error e => .error (.decode e)
  | .ok openOrders => .ok openOrders

/-- `GetTradingPairs` (src/client/rpc/dex_client.go:218-235): validate limit
then offset; a nil value yields the empty list; otherwise decode. -/
def GetTradingPairs (env : Env) (offset limit : Int) : Except Err (List TradingPair) :=
  match ValidateLimit limit with
  | .error e => .error (.validation e)
  | .ok _ =>
  match ValidateOffset offset with
  | .error e => .error (.validation e)
  | .ok _ =>
  match env.abciQuery ("dex/pairs/" ++ toString offset ++ "/" ++ toString limit) none with
  | .error e => .error (.transport e)
  | .ok rawTradePairs =>
  match rawTradePairs.value with
  | none => .ok []
  | some bz =>
  match env.codec.tradingPairsLP (some bz) with
  | .error e => .error (.decode e)
  | .ok pairs => .ok pairs

/-- `GetDepth` (src/client/rpc/dex_client.go:237-254): validate pair and
depth level, query, then decode the value directly — the status code and
emptiness of the response are never inspected. -/
def GetDepth (env : Env) (tradePair : String) (level : Int) : Except Err OrderBook :=
  match ValidatePair tradePair with
  | .error e => .error (.validation e)
  | .ok _ =>
  match ValidateDepthLevel level with
  | .error e => .error (.validation e)
  | .ok _ =>
  match env.abciQuery ("dex/orderbook/" ++ tradePair ++ "/" ++ toString level) none with
  | .error e => .error (.transport e)
  | .ok rawDepth =>
  match env.codec.orderBookLP rawDepth.value with
  | .error e => .error (.decode e)
  | .ok ob => .ok ob

/-- `GetTimelocks` (src/client/rpc/dex_client.go:256-284): the `fmt.Errorf`
value built on marshal failure is discarded and execution continues with the
nil byte slice the failed marshal returned.  (The `rawRecords == nil` guard at
line 273 is unreachable here: a successful transport call always carries a
response.) -/
def GetTimelocks (env : Env) (addr : Bytes) : Except Err (List TimeLockRecord) :=
  match
    (match env.codec.marshalTimeLocksParams { account := addr } with
     | .ok b => some b
     | .error _ => none : Option Bytes)
  with
  | bz =>
  match env.abciQuery ("custom/" ++ TimeLockMsgRoute ++ "/timelocks") bz with
  | .error e => .error (.transport e)
  | .ok rawRecords =>
  match env.codec.timeLocksJSON rawRecords.value with
  | .error e => .error (.decode e)
  | .ok records => .ok records

/-- `GetTimelock` (src/client/rpc/dex_client.go:286-316): marshal failure and
transport failure are wrapped with context; a response whose code equals the
not-found sentinel is the explicit absent result; otherwise JSON decode. -/
def GetTimelock (env : Env) (addr : Bytes) (recordID : Int) : Except Err (Option TimeLockRecord) :=
  match env.codec.marshalTimeLockParams { account := addr, id := recordID } with
  | .error e => .error (.badRequestData e)
  | .ok bz =>
  match env.abciQuery ("custom/" ++ TimeLockMsgRoute ++ "/timelock") (some bz) with
  | .error e => .error (.errorQuery e)
  | .ok rawRecord =>
  if rawRecord.code = TimeLockrcNotFoundErrorCode then .ok none
  else
    match env.codec.timeLockJSON rawRecord.value with
    | .error e => .error (.decode e)
    | .ok record => .ok (some record)

/-- `GetProposals` (src/client/rpc/dex_client.go:318-339): build the params
(zero values unless set), marshal, query `custom/gov/proposals`, JSON decode
— the status code is never inspected. -/
def GetProposals (env : Env) (status : Nat) (numLatest : Int) : Except Err (List Proposal) :=
  match env.codec.marshalProposalsParams
      { proposalStatus := if status ≠ StatusNil then status else StatusNil
      , numLatestProposals := if 0 < numLatest then numLatest else 0 } with
  | .error e => .error (.marshal e)
  | .ok bz =>
  match env.abciQuery "custom/gov/proposals" (some bz) with
  | .error e => .error (.transport e)
  | .ok rawProposals =>
  match env.codec.proposalsJSON rawProposals.value with
  | .error e => .error (.decode e)
  | .ok proposals => .ok proposals

/-- `GetSwapByHash` (src/client/rpc/dex_client.go:379-399): raw store read of
key `0x01 ++ hash` in store `"atomic_swap"`; a nil store value yields the
error `no matched swap record`. -/
def GetSwapByHash (env : Env) (randomNumberHash : Bytes) : Except Err AtomicSwap :=
  match env.queryStore (1 :: randomNumberHash) AtomicSwapStoreName with
  | .error e => .error (.transport e)
  | .ok none => .error .noMatchedSwap
  | .ok (some res) =>
  match env.codec.atomicSwapBare (some res) with
  | .error e => .error (.decode e)
  | .ok s => .ok s

/-- `GetSwapByCreator` (src/client/rpc/dex_client.go:401-430): decode the
creator address, build and marshal the params (offset and limit are used
as given, with no validator), query, JSON decode. -/
def GetSwapByCreator (env : Env) (creatorAddr swapStatus : String) (offset limit : Int) :
    Except Err (List AtomicSwap) :=
  match env.accAddressFromBech32 creatorAddr with
  | .error e => .error (.bech32 e)
  | .ok addr =>
  match env.codec.marshalSwapByCreatorParams
      { creator := addr, status := swapStatusFromString swapStatus
      , limit := limit, offset := offset } with
  | .error e => .error (.marshal e)
  | .ok bz =>
  match env.abciQuery ("custom/" ++ AtomicSwapRoute ++ "/swapcreator") (some bz) with
  | .error e => .error (.transport e)
  | .ok resp =>
  match env.codec.atomicSwapsJSON resp.value with
  | .error e => .error (.decode e)
  | .ok result => .ok result

/-- `GetSwapByRecipient` (src/client/rpc/dex_client.go:432-460): decode the
recipient address, build and marshal the params (offset and limit are used
as given, with no validator), query, JSON decode. -/
def GetSwapByRecipient (env : Env) (recipientAddr swapStatus : String) (offset limit : Int) :
    Except Err (List AtomicSwap) :=
  match env.accAddressFromBech32 recipientAddr with
  | .error e => .error (.bech32 e)
  | .ok recipient =>
  match env.codec.marshalSwapByRecipientParams
      { recipient := recipient, status := swapStatusFromString swapStatus
      , limit := limit, offset := offset } with
  | .error e => .error (.marshal e)
  | .ok bz =>
  match env.abciQuery ("custom/" ++ AtomicSwapRoute ++ "/swaprecipient") (some bz) with
  | .error e => .error (.transport e)
  | .ok resp =>
  match env.codec.atomicSwapsJSON resp.value with
  | .error e => .error (.decode e)
  | .ok result => .ok result

/-- A concrete codec used to instantiate witnesses and counterexamples. -/
def baseCodec : Codec :=
  { tokensLP := fun _ => .ok []
  , tokenLP := fun _ => .ok { symbol := "BNB", name := "Binance Coin", totalSupply := 1 }
  , accountBare := fun _ => .ok (.named [] [] [])
  , openOrdersLP := fun _ => .ok []
  , tradingPairsLP := fun _ => .ok []
  , orderBookLP := fun _ => .ok { raw := 0 }
  , feeParamsLP := fun _ => .ok []
  , proposalsJSON := fun _ => .ok []
  , timeLocksJSON := fun _ => .ok []
  , timeLockJSON := fun _ => .ok { raw := 0 }
  , atomicSwapBare := fun _ => .ok { raw := 0 }
  , atomicSwapsJSON := fun _ => .ok []
  , marshalTimeLocksParams := fun _ => .ok [123]
  , marshalTimeLockParams := fun _ => .ok [123]
  , marshalProposalsParams := fun _ => .ok [123]
  , marshalSwapByCreatorParams := fun _ => .ok [123]
  , marshalSwapByRecipientParams := fun _ => .ok [123]
  }

/-- A concrete environment used to instantiate witnesses and counterexamples. -/
def baseEnv : Env :=
  { abciQuery := fun _ _ => .ok { code := 0, value := some [0], log := "" }
  , queryStore := fun _ _ => .ok (some [0])
  , txInfoSearch := fun _ _ _ _ => .ok []
  , codec := baseCodec
  , accAddressFromBech32 := fun _ => .ok [1, 2, 3]
  , bech32Of := fun _ => "bnb1addr"
  }

/-- Claim C8 (confirmed): the committed-account lookup consults the store
`"acc"` at key `bytes of "account:"` followed by the raw address bytes, and
the swap-by-hash lookup consults the store `"atomic_swap"` at key `0x01`
followed by the hash bytes; the rest of each operation is a function of that
single store read. -/
theorem C8_store_key_contract (env : Env) (addr hash : Bytes) :
    GetCommitAccount env addr =
      (match env.queryStore ([97, 99, 99, 111, 117, 110, 116, 58] ++ addr) "acc" with
       | .error e => .error (.transport e)
       | .ok none => .ok none
       | .ok (some bz) =>
         match env.codec.accountBare (some bz) with
         | .error e => .error (.decode e)
         | .ok acc => .ok (some acc))
    ∧ GetSwapByHash env hash =
      (match env.queryStore (1 :: hash) "atomic_swap" with
       | .error e => .error (.transport e)
       | .ok none => .error .noMatchedSwap
       | .ok (some res) =>
         match env.codec.atomicSwapBare (some res) with
         | .error e => .error (.decode e)
         | .ok s => .ok s) :=
  ⟨rfl, rfl⟩

/-- Claim C6 (confirmed): whenever the single time-lock lookup reaches the
transport and the response's status code equals the fixed not-found sentinel
458760, `GetTimelock` returns the explicit absent result (no record, no
error), for any value bytes and any log text in that response. -/
theorem C6_timelock_sentinel (env : Env) (addr : Bytes) (recordID : Int)
    (bz : Bytes) (value : Option Bytes) (log : String)
    (hm : env.codec.marshalTimeLockParams { account := addr, id := recordID } = .ok bz)
    (hq : env.abciQuery ("custom/" ++ TimeLockMsgRoute ++ "/timelock") (some bz) =
      .ok { code := TimeLockrcNotFoundErrorCode, value := value, log := log }) :
    GetTimelock env addr recordID = .ok none := by
  unfold GetTimelock
  simp only [hm]
  rw [hq]
  simp

/-- Environment for the C6 witness: the transport answers every path with the
not-found sentinel code, arbitrary value bytes and a non-empty log. -/
def envC6w : Env :=
  { baseEnv with
    abciQuery := fun _ _ =>
      .ok { code := 458760, value := some [1, 2], log := "record absent" } }

/-- Witness for C6 at a concrete environment and inputs. -/
theorem C6_timelock_sentinel_witness :
    GetTimelock envC6w [7] 5 = .ok none :=
  C6_timelock_sentinel envC6w [7] 5 [123] (some [1, 2]) "record absent" rfl rfl

/-- Counterexample for claim C2: with a store in which no record matches the
swap key, `GetSwapByHash` returns the error `no matched swap record` — an
error, not an explicit empty-result signal. -/
def envC2 : Env := { baseEnv with queryStore := fun _ _ => .ok none }

/-- Claim C2 as stated is false at a concrete input: the swap-by-hash lookup
answers absence with an error rather than an absent value. -/
theorem C2_counterexample :
    GetSwapByHash envC2 [5, 6] = .error .noMatchedSwap := rfl

/-- Claim C2 (amended): `GetAccount`, `GetCommitAccount` and `GetTimelock`
return the explicit empty result (absent value, no error) when the record
does not exist, but `GetSwapByHash` returns the error `no matched swap
record` instead of an empty-result signal. -/
theorem C2_absence_signals (env : Env) (addr : Bytes) (recordID : Int) (hash : Bytes)
    (racc rtl : AbciResponse) (bz : Bytes)
    (hstore : env.queryStore (strBytes "account:" ++ addr) AccountStoreName = .ok none)
    (hacct : env.abciQuery ("/account/" ++ env.bech32Of addr) none = .ok racc)
    (hok : racc.isOK = true)
    (hempty : racc.value = none)
    (hm : env.codec.marshalTimeLockParams { account := addr, id := recordID } = .ok bz)
    (htl : env.abciQuery ("custom/" ++ TimeLockMsgRoute ++ "/timelock") (some bz) = .ok rtl)
    (hcode : rtl.code = TimeLockrcNotFoundErrorCode)
    (hswap : env.queryStore (1 :: hash) AtomicSwapStoreName = .ok none) :
    GetCommitAccount env addr = .ok none
    ∧ GetAccount env addr = .ok none
    ∧ GetTimelock env addr recordID = .ok none
    ∧ GetSwapByHash env hash = .error .noMatchedSwap := by
  refine ⟨?_, ?_, ?_, ?_⟩
  · unfold GetCommitAccount
    rw [hstore]
  · unfold GetAccount
    rw [hacct]
    simp [hok, hempty]
  · unfold GetTimelock
    simp only [hm]
    rw [htl]
    simp [hcode]
  · unfold GetSwapByHash
    rw [hswap]

/-- Environment for the C2 witness: the store is empty, the single time-lock
route answers with the sentinel, and every other ABCI path answers success
with a nil value. -/
def envC2w : Env :=
  { baseEnv with
    queryStore := fun _ _ => .ok none
  , abciQuery := fun path _ =>
      if path = "custom/timelock/timelock" then
        .ok { code := 458760, value := some [1], log := "not found" }
      else .ok { code := 0, value := none, log := "" } }

/-- Witness for the amended C2 at a concrete environment and inputs. -/
theorem C2_absence_signals_witness :
    GetCommitAccount envC2w [7] = .ok none
    ∧ GetAccount envC2w [7] = .ok none
    ∧ GetTimelock envC2w [7] 5 = .ok none
    ∧ GetSwapByHash envC2w [9] = .error .noMatchedSwap :=
  C2_absence_signals envC2w [7] 5 [9]
    { code := 0, value := none, log := "" }
    { code := 458760, value := some [1], log := "not found" }
    [123] rfl rfl rfl rfl rfl rfl rfl rfl

/-- Environment for claim C1: every ABCI path answers with a non-success
status code 7 and log `remote failure`, and the order-book decoder accepts
the value bytes. -/
def envC1 : Env :=
  { baseEnv with
    abciQuery := fun _ _ => .ok { code := 7, value := some [9], log := "remote failure" }
  , codec := { baseCodec with orderBookLP := fun _ => .ok { raw := 42 } } }

/-- Claim C1 as stated is false at a concrete input: on a response with a
non-success status code, `GetDepth` hands the value bytes to the codec and
returns its decoded result, instead of an error carrying the remote log. -/
theorem C1_counterexample :
    GetDepth envC1 "BNB_BUSD" 5 = .ok { raw := 42 }
    ∧ GetDepth envC1 "BNB_BUSD" 5 ≠ .error (.remote "remote failure") := by
  refine ⟨rfl, ?_⟩
  intro h
  rw [show GetDepth envC1 "BNB_BUSD" 5 = Except.ok { raw := 42 } from rfl] at h
  exact Except.noConfusion h

/-- Claim C1 (amended): the four-way classification is not applied uniformly.
`GetAccount` does classify: a non-success status yields an error carrying the
remote log.  `GetDepth` and `GetProposals` never inspect the status code: for
any transport response, including one with a non-success code, the result is
exactly the codec's verdict on the value bytes, and the remote log is not
surfaced. -/
theorem C1_classification_not_uniform (env : Env) (addr : Bytes) (pair : String) (level : Int)
    (status : Nat) (numLatest : Int) (racc rdep rprop : AbciResponse) (bzp : Bytes)
    (hpair : ValidatePair pair = .ok ())
    (hlevel : ValidateDepthLevel level = .ok ())
    (hacct : env.abciQuery ("/account/" ++ env.bech32Of addr) none = .ok racc)
    (hnotok : racc.isOK = false)
    (hdep : env.abciQuery ("dex/orderbook/" ++ pair ++ "/" ++ toString level) none = .ok rdep)
    (hm : env.codec.marshalProposalsParams
      { proposalStatus := if status ≠ StatusNil then status else StatusNil
      , numLatestProposals := if 0 < numLatest then numLatest else 0 } = .ok bzp)
    (hprop : env.abciQuery "custom/gov/proposals" (some bzp) = .ok rprop) :
    GetAccount env addr = .error (.remote racc.log)
    ∧ GetDepth env pair level =
        (match env.codec.orderBookLP rdep.value with
         | .error e => .error (.decode e)
         | .ok ob => .ok ob)
    ∧ GetProposals env status numLatest =
        (match env.codec.proposalsJSON rprop.value with
         | .error e => .error (.decode e)
         | .ok ps => .ok ps) := by
  refine ⟨?_, ?_, ?_⟩
  · unfold GetAccount
    rw [hacct]
    simp [hnotok]
  · unfold GetDepth
    simp only [hpair, hlevel]
    rw [hdep]
  · unfold GetProposals
    simp only [hm]
    rw [hprop]

/-- Witness for the amended C1 at a concrete environment and inputs. -/
theorem C1_classification_not_uniform_witness :
    GetAccount envC1 [1] = .error (.remote "remote failure")
    ∧ GetDepth envC1 "BNB_BUSD" 5 = .ok { raw := 42 }
    ∧ GetProposals envC1 0 0 = .ok [] :=
  C1_classification_not_uniform envC1 [1] "BNB_BUSD" 5 0 0
    { code := 7, value := some [9], log := "remote failure" }
    { code := 7, value := some [9], log := "remote failure" }
    { code := 7, value := some [9], log := "remote failure" }
    [123] rfl rfl rfl rfl rfl rfl rfl

/-- Environment for claim C3: the transport answers success with decodable
value bytes on every path. -/
def envC3 : Env :=
  { baseEnv with abciQuery := fun _ _ => .ok { code := 0, value := some [7], log := "" } }

/-- Claim C3 as stated is false at a concrete input: `GetSwapByCreator` with
the negative offset -1 does not return a validation failure before the
transport call — it proceeds through address decode, marshal, transport and
decode, and returns the decoded result. -/
theorem C3_counterexample :
    GetSwapByCreator envC3 "bnb1creator" "Open" (-1) 10 = .ok []
    ∧ ∀ m, GetSwapByCreator envC3 "bnb1creator" "Open" (-1) 10 ≠ .error (.validation m) := by
  refine ⟨rfl, ?_⟩
  intro m h
  rw [show GetSwapByCreator envC3 "bnb1creator" "Open" (-1) 10 = Except.ok [] from rfl] at h
  exact Except.noConfusion h

/-- Claim C3 (amended): the operations with declared validators —
`ListAllTokens` (offset then limit), `GetTradingPairs` (limit then offset),
`GetTokenInfo` (symbol), `GetOpenOrders` (pair), `GetDepth` (pair then depth
level), `GetBalance` (symbol) and `TxInfoSearch` (search-query string) — run
them before any other step: on a failing parameter each returns that
validation failure for every environment, so no transport call can influence
the result.  But `GetSwapByCreator` and `GetSwapByRecipient` validate only
the address text (bech32 decode): offset and limit are never validated, and
even a negative offset flows through marshal and transport to a decoded
result. -/
theorem C3_validator_coverage (envA : Env)
    (offB limB offG limG : Int) (symB pairB pairG : String) (levB : Int) (qB : String)
    (mOff mLim mSym mPair mLev mQ : String)
    (creator recipient st : String) (offN limN : Int) (addrC addrR bzC bzR : Bytes)
    (respC respR : AbciResponse) (swapsC swapsR : List AtomicSwap)
    (hoffB : ValidateOffset offB = .error mOff)
    (hlimB : ValidateLimit limB = .error mLim)
    (hoffG : ValidateOffset offG = .ok ())
    (hlimG : ValidateLimit limG = .ok ())
    (hsymB : ValidateSymbol symB = .error mSym)
    (hpairB : ValidatePair pairB = .error mPair)
    (hpairG : ValidatePair pairG = .ok ())
    (hlevB : ValidateDepthLevel levB = .error mLev)
    (hqB : ValidateTxSearchQueryStr qB = .error mQ)
    (_hneg : offN < 0)
    (hbc : envA.accAddressFromBech32 creator = .ok addrC)
    (hmc : envA.codec.marshalSwapByCreatorParams
      { creator := addrC, status := swapStatusFromString st, limit := limN, offset := offN } = .ok bzC)
    (hqc : envA.abciQuery ("custom/" ++ AtomicSwapRoute ++ "/swapcreator") (some bzC) = .ok respC)
    (hdc : envA.codec.atomicSwapsJSON respC.value = .ok swapsC)
    (hbr : envA.accAddressFromBech32 recipient = .ok addrR)
    (hmr : envA.codec.marshalSwapByRecipientParams
      { recipient := addrR, status := swapStatusFromString st, limit := limN, offset := offN } = .ok bzR)
    (hqr : envA.abciQuery ("custom/" ++ AtomicSwapRoute ++ "/swaprecipient") (some bzR) = .ok respR)
    (hdr : envA.codec.atomicSwapsJSON respR.value = .ok swapsR) :
    (∀ (env : Env) (lim : Int), ListAllTokens env offB lim = .error (.validation mOff))
    ∧ (∀ env : Env, ListAllTokens env offG limB = .error (.validation mLim))
    ∧ (∀ (env : Env) (off : Int), GetTradingPairs env off limB = .error (.validation mLim))
    ∧ (∀ env : Env, GetTradingPairs env offB limG = .error (.validation mOff))
    ∧ (∀ env : Env, GetTokenInfo env symB = .error (.validation mSym))
    ∧ (∀ (env : Env) (a : Bytes), GetOpenOrders env a pairB = .error (.validation mPair))
    ∧ (∀ (env : Env) (lev : Int), GetDepth env pairB lev = .error (.validation mPair))
    ∧ (∀ env : Env, GetDepth env pairG levB = .error (.validation mLev))
    ∧ (∀ (env : Env) (a : Bytes), GetBalance env a symB = .err (.validation mSym))
    ∧ (∀ (env : Env) (pv : Bool) (pg pp : Int),
        TxInfoSearch env qB pv pg pp = .error (.validation mQ))
    ∧ GetSwapByCreator envA creator st offN limN = .ok swapsC
    ∧ GetSwapByRecipient envA recipient st offN limN = .ok swapsR := by
  refine ⟨?_, ?_, ?_, ?_, ?_, ?_, ?_, ?_, ?_, ?_, ?_, ?_⟩
  · intro env lim
    unfold ListAllTokens
    simp only [hoffB]
  · intro env
    unfold ListAllTokens
    simp only [hoffG, hlimB]
  · intro env off
    unfold GetTradingPairs
    simp only [hlimB]
  · intro env
    unfold GetTradingPairs
    simp only [hlimG, hoffB]
  · intro env
    unfold GetTokenInfo
    simp only [hsymB]
  · intro env a
    unfold GetOpenOrders
    simp only [hpairB]
  · intro env lev
    unfold GetDepth
    simp only [hpairB]
  · intro env
    unfold GetDepth
    simp only [hpairG, hlevB]
  · intro env a
    unfold GetBalance
    simp only [hsymB]
  · intro env pv pg pp
    unfold TxInfoSearch
    simp only [hqB]
  · unfold GetSwapByCreator
    simp only [hbc, hmc]
    rw [hqc]
    simp only [hdc]
  · unfold GetSwapByRecipient
    simp only [hbr, hmr]
    rw [hqr]
    simp only [hdr]

/-- Witness for the amended C3 at concrete environments and inputs: offset
-9, limit 2000, the empty symbol, the separator-free pair `BNBBUSD`, depth
level 7, the free-text query `free text`, and the swap queries at offset -1. -/
theorem C3_validator_coverage_witness :
    ListAllTokens baseEnv (-9) 10 = .error (.validation "offset should not be less than 0")
    ∧ ListAllTokens baseEnv 0 2000 = .error (.validation "limit is too large")
    ∧ GetTradingPairs baseEnv 0 2000 = .error (.validation "limit is too large")
    ∧ GetTradingPairs baseEnv (-9) 10 = .error (.validation "offset should not be less than 0")
    ∧ GetTokenInfo baseEnv "" = .error (.validation "symbol should not be empty")
    ∧ GetOpenOrders baseEnv [1] "BNBBUSD" =
        .error (.validation "pair should be in format of BASE_QUOTE")
    ∧ GetDepth baseEnv "BNBBUSD" 5 =
        .error (.validation "pair should be in format of BASE_QUOTE")
    ∧ GetDepth baseEnv "BNB_BUSD" 7 = .error (.validation "depth level is not allowed")
    ∧ GetBalance baseEnv [1] "" = .err (.validation "symbol should not be empty")
    ∧ TxInfoSearch baseEnv "free text" true 1 30 =
        .error (.validation "query string has no key:value clause")
    ∧ GetSwapByCreator envC3 "bnb1creator" "Open" (-1) 10 = .ok []
    ∧ GetSwapByRecipient envC3 "bnb1recip" "Open" (-1) 10 = .ok [] := by
  have h := C3_validator_coverage envC3 (-9) 2000 0 10 "" "BNBBUSD" "BNB_BUSD" 7 "free text"
    "offset should not be less than 0" "limit is too large" "symbol should not be empty"
    "pair should be in format of BASE_QUOTE" "depth level is not allowed"
    "query string has no key:value clause"
    "bnb1creator" "bnb1recip" "Open" (-1) 10 [1, 2, 3] [1, 2, 3] [123] [123]
    { code := 0, value := some [7], log := "" } { code := 0, value := some [7], log := "" }
    [] [] rfl rfl rfl rfl rfl rfl rfl rfl rfl (by decide)
    rfl rfl rfl rfl rfl rfl rfl rfl
  exact ⟨h.1 baseEnv 10, h.2.1 baseEnv, h.2.2.1 baseEnv 0, h.2.2.2.1 baseEnv,
    h.2.2.2.2.1 baseEnv, h.2.2.2.2.2.1 baseEnv [1], h.2.2.2.2.2.2.1 baseEnv 5,
    h.2.2.2.2.2.2.2.1 baseEnv, h.2.2.2.2.2.2.2.2.1 baseEnv [1],
    h.2.2.2.2.2.2.2.2.2.1 baseEnv true 1 30,
    h.2.2.2.2.2.2.2.2.2.2.1, h.2.2.2.2.2.2.2.2.2.2.2⟩

/-- Environment for claim C4: the account query decodes to a plain account
(no locked/frozen capability) holding one coin, and the token probe
succeeds. -/
def envC4 : Env :=
  { baseEnv with
    abciQuery := fun _ _ => .ok { code := 0, value := some [3], log := "" }
  , codec := { baseCodec with
      accountBare := fun _ => .ok (.plain [{ denom := "BNB", amount := 100 }]) } }

/-- Environment for claim C4: the account query reports the account absent
(success status, empty value). -/
def envC4b : Env :=
  { baseEnv with abciQuery := fun _ _ => .ok { code := 0, value := none, log := "" } }

/-- Claim C4 (code bug): the balance operations do not check the
named-account capability — the single-form assertion
`account.(types.NamedAccount)` (and `account.GetCoins()` on a nil account)
runs unguarded, so on a plain or absent account the lookup aborts with a Go
runtime panic; the `nacc != nil` guard written after the assertion never
runs.  Evaluated at the failing inputs: a decoded plain account holding one
coin, and an absent account. -/
theorem C4_unchecked_downcast_panics :
    GetBalances envC4 [1] =
      .panicked "interface conversion: types.Account is not types.NamedAccount"
    ∧ GetBalance envC4 [1] "BNB" =
      .panicked "interface conversion: types.Account is not types.NamedAccount"
    ∧ GetBalances envC4b [1] =
      .panicked "runtime error: invalid memory address or nil pointer dereference" :=
  ⟨rfl, rfl, rfl⟩

/-- Environment for the C5 counterexample: the account query decodes to a
plain account holding one coin. -/
def envC5 : Env :=
  { baseEnv with
    abciQuery := fun _ _ => .ok { code := 0, value := some [4], log := "" }
  , codec := { baseCodec with
      accountBare := fun _ => .ok (.plain [{ denom := "BUSD", amount := 50 }]) } }

/-- Claim C5 as stated is false at a concrete input: for a decoded plain
account holding `BUSD: 50`, `GetBalances` does not return the single entry
with `locked = 0` and `frozen = 0` — it aborts with a panic on the
type assertion. -/
theorem C5_counterexample :
    GetBalances envC5 [2] ≠ .ok [{ symbol := "BUSD", free := 50, locked := 0, frozen := 0 }]
    ∧ GetBalances envC5 [2] =
      .panicked "interface conversion: types.Account is not types.NamedAccount" := by
  refine ⟨?_, rfl⟩
  intro h
  rw [show GetBalances envC5 [2] =
    Outcome.panicked "interface conversion: types.Account is not types.NamedAccount" from rfl] at h
  exact Outcome.noConfusion h

/-- The aggregation loop on a named account: one balance per coin entry,
free from the total mapping, locked and frozen from their mappings. -/
theorem balancesLoop_named (coins locked frozen : Coins) (l : List Coin) :
    balancesLoop (.named coins locked frozen) coins l =
      .ok (l.map fun c =>
        { symbol := c.denom
        , free := Coins.amountOf coins c.denom
        , locked := Coins.amountOf locked c.denom
        , frozen := Coins.amountOf frozen c.denom }) := by
  induction l with
  | nil => rfl
  | cons c rest ih =>
    unfold balancesLoop
    rw [ih]
    simp

/-- Claim C5 (amended): for every decoded *named* account, `GetBalances`
returns exactly one TokenBalance per entry of the total-coin mapping, with
`free` the total amount of the symbol, `locked` the amount in the locked-coin
mapping and `frozen` the amount in the frozen-coin mapping (0 when the symbol
is absent from those mappings); for a plain account holding at least one coin
the operation panics on the downcast instead of reporting locked and frozen
as 0. -/
theorem C5_named_account_balances (env : Env) (addr : Bytes) (racc : AbciResponse)
    (coins locked frozen : Coins)
    (hacct : env.abciQuery ("/account/" ++ env.bech32Of addr) none = .ok racc)
    (hok : racc.isOK = true)
    (hlen : (racc.value.getD []).length ≠ 0)
    (hdec : env.codec.accountBare racc.value = .ok (.named coins locked frozen)) :
    GetBalances env addr = .ok (coins.map fun c =>
      { symbol := c.denom
      , free := Coins.amountOf coins c.denom
      , locked := Coins.amountOf locked c.denom
      , frozen := Coins.amountOf frozen c.denom }) := by
  unfold GetBalances GetAccount
  rw [hacct]
  simp only [hok, if_true]
  rw [if_neg hlen]
  simp only [hdec]
  simp only [Account.getCoins]
  exact balancesLoop_named coins locked frozen coins

/-- Environment for the C5 witness: the account of §8 of the spec — totals
`BNB: 100, BUSD: 50`, locked `BNB: 10`, frozen empty. -/
def envC5w : Env :=
  { baseEnv with
    abciQuery := fun _ _ => .ok { code := 0, value := some [3], log := "" }
  , codec := { baseCodec with
      accountBare := fun _ =>
        .ok (.named
          [{ denom := "BNB", amount := 100 }, { denom := "BUSD", amount := 50 }]
          [{ denom := "BNB", amount := 10 }] []) } }

/-- Witness for the amended C5 on the worked example of §8 of the spec. -/
theorem C5_named_account_balances_witness :
    GetBalances envC5w [1] = .ok
      [ { symbol := "BNB", free := 100, locked := 10, frozen := 0 }
      , { symbol := "BUSD", free := 50, locked := 0, frozen := 0 } ] := by
  have h := C5_named_account_balances envC5w [1] { code := 0, value := some [3], log := "" }
    [{ denom := "BNB", amount := 100 }, { denom := "BUSD", amount := 50 }]
    [{ denom := "BNB", amount := 10 }] []
    rfl rfl (by decide) rfl
  exact h.trans (by decide)

/-- The message with which the length-prefixed binary codec rejects
zero-length input (the observed behavior of the wire codec on empty bytes). -/
def aminoEmptyMsg : String := "UnmarshalBinaryLengthPrefixed cannot decode empty bytes"

/-- Environment for the C7 counterexample: every path answers success with a
nil value, and the length-prefixed decoders reject zero-length input as the
wire codec does. -/
def envC7 : Env :=
  { baseEnv with
    abciQuery := fun _ _ => .ok { code := 0, value := none, log := "" }
  , codec := { baseCodec with
      tokensLP := fun v => if (v.getD []).length = 0 then .error aminoEmptyMsg else .ok []
    , feeParamsLP := fun v => if (v.getD []).length = 0 then .error aminoEmptyMsg else .ok [] } }

/-- Claim C7 as stated is false at a concrete input: on a success response
with zero-length value bytes, `ListAllTokens` and `GetFee` do not yield an
empty sequence — they pass the empty bytes to the codec and surface its
error. -/
theorem C7_counterexample :
    ListAllTokens envC7 0 10 = .error (.decode aminoEmptyMsg)
    ∧ GetFee envC7 = .error (.decode aminoEmptyMsg) :=
  ⟨rfl, rfl⟩

/-- Claim C7 (amended): among the list-returning queries, `GetOpenOrders` and
`GetTradingPairs` answer a success response with a nil value by the empty
sequence without consulting the codec, but `ListAllTokens` and `GetFee` have
no emptiness check: they pass the zero-length value to the codec and return
its verdict. -/
theorem C7_empty_value_lists (env : Env) (addr : Bytes) (pair : String) (offset limit : Int)
    (r1 r2 r3 r4 : AbciResponse)
    (hpair : ValidatePair pair = .ok ())
    (hoff : ValidateOffset offset = .ok ())
    (hlim : ValidateLimit limit = .ok ())
    (h1 : env.abciQuery ("dex/openorders/" ++ pair ++ "/" ++ env.bech32Of addr) none = .ok r1)
    (h1v : r1.value = none)
    (h2 : env.abciQuery ("dex/pairs/" ++ toString offset ++ "/" ++ toString limit) none = .ok r2)
    (h2v : r2.value = none)
    (h3 : env.abciQuery ("tokens/list/" ++ toString offset ++ "/" ++ toString limit) none = .ok r3)
    (h3v : r3.value = none)
    (h4 : env.abciQuery "param/fees" none = .ok r4)
    (h4v : r4.value = none) :
    GetOpenOrders env addr pair = .ok []
    ∧ GetTradingPairs env offset limit = .ok []
    ∧ ListAllTokens env offset limit =
        (match env.codec.tokensLP none with
         | .error e => .error (.decode e)
         | .ok ts => .ok ts)
    ∧ GetFee env =
        (match env.codec.feeParamsLP none with
         | .error e => .error (.decode e)
         | .ok fs => .ok fs) := by
  refine ⟨?_, ?_, ?_, ?_⟩
  · unfold GetOpenOrders
    simp only [hpair]
    rw [h1]
    simp [h1v]
  · unfold GetTradingPairs
    simp only [hlim, hoff]
    rw [h2]
    simp [h2v]
  · unfold ListAllTokens
    simp only [hoff, hlim]
    rw [h3]
    simp [h3v]
  · unfold GetFee
    rw [h4]
    simp [h4v]

/-- Environment for the C7 witness: every path answers success with a nil
value, under the base codec (which accepts any input). -/
def envC7w : Env :=
  { baseEnv with abciQuery := fun _ _ => .ok { code := 0, value := none, log := "" } }

/-- Witness for the amended C7 at a concrete environment and inputs. -/
theorem C7_empty_value_lists_witness :
    GetOpenOrders envC7w [1] "BNB_BUSD" = .ok []
    ∧ GetTradingPairs envC7w 0 10 = .ok []
    ∧ ListAllTokens envC7w 0 10 = .ok []
    ∧ GetFee envC7w = .ok [] :=
  C7_empty_value_lists envC7w [1] "BNB_BUSD" 0 10
    { code := 0, value := none, log := "" } { code := 0, value := none, log := "" }
    { code := 0, value := none, log := "" } { code := 0, value := none, log := "" }
    rfl rfl rfl rfl rfl rfl rfl rfl rfl rfl rfl

/-- Environment for claim C9: marshaling the time-lock list params fails, the
transport answers success, and the decoder accepts the value bytes. -/
def envC9 : Env :=
  { baseEnv with
    abciQuery := fun _ _ => .ok { code := 0, value := some [91, 93], log := "" }
  , codec := { baseCodec with
      marshalTimeLocksParams := fun _ => .error "unsupported type"
    , timeLocksJSON := fun _ => .ok [{ raw := 7 }] } }

/-- Claim C9 (code bug): `GetTimelocks` constructs an error with
`fmt.Errorf` when marshaling the request parameters fails and then discards
it — the operation continues with the nil byte slice of the failed marshal,
calls the transport, and here returns a decoded success; the
parameter-encoding failure never reaches the caller. -/
theorem C9_timelocks_marshal_error_discarded :
    GetTimelocks envC9 [4] = .ok [{ raw := 7 }]
    ∧ ∀ m, GetTimelocks envC9 [4] ≠ .error (.marshal m) := by
  refine ⟨rfl, ?_⟩
  intro m h
  rw [show GetTimelocks envC9 [4] = Except.ok [{ raw := 7 }] from rfl] at h
  exact Except.noConfusion h

/-- `GetAccount` never produces the `symbol not found` error: its error
outcomes are transport, remote-log and decode errors only. -/
theorem GetAccount_no_symbolNotFound (env : Env) (addr : Bytes) :
    GetAccount env addr ≠ .error .symbolNotFound := by
  unfold GetAccount
  cases hq : env.abciQuery ("/account/" ++ env.bech32Of addr) none with
  | error e => simp
  | ok result =>
    cases hok : result.isOK with
    | false => simp [hok]
    | true =>
      by_cases hl : (result.value.getD []).length = 0
      · simp [hok, hl]
      · cases hc : env.codec.accountBare result.value with
        | error e => simp [hok, hl, hc]
        | ok acc => simp [hok, hl, hc]

/-- Claim C10 (confirmed): with a valid symbol, `GetBalance` returns the
`symbol not found` error exactly when the token-existence probe `existsCC`
fails, and the probe fails on each of its four reasons — transport error,
non-success status, zero-length value, and decode failure of the token-info
response — so those causes are indistinguishable to the caller from an
unregistered symbol. -/
theorem C10_symbol_probe (env : Env) (addr : Bytes) (symbol : String)
    (hv : ValidateSymbol symbol = .ok ()) :
    (GetBalance env addr symbol = .err .symbolNotFound ↔ existsCC env symbol = false)
    ∧ (∀ e, env.abciQuery ("tokens/info/" ++ symbol) none = .error e →
        existsCC env symbol = false)
    ∧ (∀ r, env.abciQuery ("tokens/info/" ++ symbol) none = .ok r → r.isOK = false →
        existsCC env symbol = false)
    ∧ (∀ r, env.abciQuery ("tokens/info/" ++ symbol) none = .ok r →
        (r.value.getD []).length = 0 → existsCC env symbol = false)
    ∧ (∀ r e, env.abciQuery ("tokens/info/" ++ symbol) none = .ok r →
        env.codec.tokenLP r.value = .error e → existsCC env symbol = false) := by
  refine ⟨?_, ?_, ?_, ?_, ?_⟩
  · constructor
    · intro h
      cases hcc : existsCC env symbol with
      | false => rfl
      | true =>
        exfalso
        unfold GetBalance at h
        simp only [hv, hcc, if_true] at h
        cases hga : GetAccount env addr with
        | error e =>
          rw [hga] at h
          simp only [Outcome.err.injEq] at h
          exact GetAccount_no_symbolNotFound env addr (h ▸ hga)
        | ok acc =>
          rw [hga] at h
          cases acc with
          | none => simp at h
          | some a => cases a <;> simp at h
    · intro hcc
      unfold GetBalance
      simp [hv, hcc]
  · intro e he
    unfold existsCC
    rw [he]
  · intro r hr hnok
    unfold existsCC
    rw [hr]
    simp [hnok]
  · intro r hr hlen
    unfold existsCC
    rw [hr]
    cases hok : r.isOK <;> simp [hok, hlen]
  · intro r e hr hd
    unfold existsCC
    rw [hr]
    cases hok : r.isOK <;>
      [skip; by_cases hl : (r.value.getD []).length = 0] <;>
      simp_all

/-- Environment for the C10 witness: the transport fails outright, so the
token-existence probe fails for a transient reason. -/
def envC10w : Env := { baseEnv with abciQuery := fun _ _ => .error "connection refused" }

/-- Witness for C10: under a transport failure the probe fails and
`GetBalance` on the valid symbol `BNB` reports `symbol not found`. -/
theorem C10_symbol_probe_witness :
    GetBalance envC10w [1] "BNB" = .err .symbolNotFound :=
  ((C10_symbol_probe envC10w [1] "BNB" rfl).1).mpr rfl
